import Mathlib

/-
  Verification development for the metric-derivation and color-mapping engine
  of `app_horizontal_dashboard.py` (global suicide analytics dashboard).

  Shallow embedding conventions:
  * Python floats are modelled as rationals (`ℚ`).  A pandas cell that is
    missing (`NaN`) or a Python `None` is modelled as `none : Option ℚ`;
    this is faithful because `NaN` propagates through the arithmetic the
    code performs exactly as `Option.map₂`-style propagation does, and
    `pd.isna`/`pd.notna` correspond to `Option.isNone`/`Option.isSome`.
  * Hex color strings are modelled at the RGB level: `hex_to_rgb` and
    `rgb_to_hex` in the source form a bijection between canonical hex
    strings and triples of channel integers, so a color is a triple
    `(r, g, b) : ℤ × ℤ × ℤ`.  The constant `"#1F77B4"` is `(31, 119, 180)`.
  * A Python expression that raises (e.g. `color_scale[-1]` on an empty
    list) is modelled by an `Option`-valued result being `none`.
  * Python `int(x)` and numpy `.astype(int)` truncate toward zero; this is
    `truncQ` below.
-/

/-- An RGB color: the three channel values decoded from a `#rrggbb` string. -/
abbrev Rgb := ℤ × ℤ × ℤ

/-- Python `int(q)` on a real value: truncation toward zero. -/
def truncQ (q : ℚ) : ℤ := if 0 ≤ q then ⌊q⌋ else ⌈q⌉

/-- One channel of `int(rgb1[j] + t * (rgb2[j] - rgb1[j]))` from
`get_dynamic_color`'s interpolation step. -/
def lerpChannel (c1 c2 : ℤ) (t : ℚ) : ℤ :=
  truncQ ((c1 : ℚ) + t * ((c2 : ℚ) - (c1 : ℚ)))

/-- The tuple `tuple(int(rgb1[j] + t * (rgb2[j] - rgb1[j])) for j in range(3))`. -/
def lerpColor (a b : Rgb) (t : ℚ) : Rgb :=
  (lerpChannel a.1 b.1 t, lerpChannel a.2.1 b.2.1 t, lerpChannel a.2.2 b.2.2 t)

/-- The `for i in range(len(color_scale) - 1)` loop of `get_dynamic_color`:
find the first adjacent pair of stops bracketing `t` and interpolate there;
`none` when no pair matches (then the source falls through to
`color_scale[-1][1]`). -/
def interpSegments (t : ℚ) : List (ℚ × Rgb) → Option Rgb
  | p :: q :: rest =>
    if p.1 ≤ t ∧ t ≤ q.1 then
      some (lerpColor p.2 q.2 (if q.1 - p.1 = 0 then 0 else (t - p.1) / (q.1 - p.1)))
    else interpSegments t (q :: rest)
  | _ => none

/-- The hard-coded fallback color `"#1F77B4"` of `get_dynamic_color`. -/
def defaultBlue : Rgb := (31, 119, 180)

/-- The function `get_dynamic_color(value, min_val, max_val, color_scale)`.
`value = none` is `pd.isna(value)`.  The result is `none` exactly when the
Python code would raise (`color_scale[-1]` on an empty scale). -/
def get_dynamic_color (value : Option ℚ) (min_val max_val : ℚ)
    (color_scale : List (ℚ × Rgb)) : Option Rgb :=
  if value = none ∨ max_val - min_val = 0 then
    some (match color_scale with
      | [] => defaultBlue
      | _ :: _ => (color_scale.getD (color_scale.length / 2) (0, defaultBlue)).2)
  else
    match interpSegments
        (max 0 (min 1 ((value.getD 0 - min_val) / (max_val - min_val)))) color_scale with
    | some c => some c
    | none => color_scale.getLast?.map Prod.snd

/-- The constant `BLUE_COLOR_SCALE`, hex colors decoded to RGB triples. -/
def BLUE_COLOR_SCALE : List (ℚ × Rgb) :=
  [(0, (224, 242, 247)),      -- "#E0F2F7"
   (1/5, (179, 224, 242)),    -- "#B3E0F2"
   (2/5, (128, 204, 235)),    -- "#80CCEB"
   (3/5, (77, 184, 224)),     -- "#4DB8E0"
   (4/5, (31, 119, 180)),     -- "#1F77B4"
   (1, (10, 59, 87))]         -- "#0A3B57"

/-
  Python string operations, modelled on `List Char` (a `String`'s character
  list) with structural recursion so that concrete instances evaluate.
-/

/-- Strip `pre` from the front of `s`; `none` when `pre` is not a prefix. -/
def stripPre : List Char → List Char → Option (List Char)
  | [], s => some s
  | _ :: _, [] => none
  | a :: as, b :: bs => if a == b then stripPre as bs else none

/-- Fuel-driven core of Python `s.split(sep)`: scan left to right, cutting at
each non-overlapping occurrence of `sep`.  The fuel starts at `s.length`,
which suffices because every step consumes at least one character. -/
def splitFuel (sep : List Char) : Nat → List Char → List Char → List (List Char)
  | 0, _, acc => [acc.reverse]
  | _ + 1, [], acc => [acc.reverse]
  | n + 1, c :: rest, acc =>
    match stripPre sep (c :: rest) with
    | some rem => acc.reverse :: splitFuel sep n rem []
    | none => splitFuel sep n rest (c :: acc)

/-- Python `s.split(sep)` for a nonempty separator. -/
def splitOnL (sep s : List Char) : List (List Char) := splitFuel sep s.length s []

/-- Fuel-driven core of Python `s.replace(old, new)`. -/
def replaceFuel (old new : List Char) : Nat → List Char → List Char
  | 0, s => s
  | _ + 1, [] => []
  | n + 1, c :: rest =>
    match stripPre old (c :: rest) with
    | some rem => new ++ replaceFuel old new n rem
    | none => c :: replaceFuel old new n rest

/-- Python `s.replace(old, new)` for a nonempty `old`. -/
def replaceL (s old new : List Char) : List Char := replaceFuel old new s.length s

/-- Python `pat in s` for a nonempty `pat`: the split has more than one part
exactly when `pat` occurs in `s`. -/
def containsL (s pat : List Char) : Bool := decide (1 < (splitOnL pat s).length)

/-- Lines 176-181: the per-column relabelling inside the `age_labels` loop:
`col.split("aged_")[1].split("_year_olds")[0].replace("_", "–")` when the
column name contains both `"aged_"` and `"_year_olds"`, else the column name
unchanged. -/
def age_label (col : String) : String :=
  if containsL col.data "aged_".data && containsL col.data "_year_olds".data then
    String.mk (replaceL
      ((splitOnL "_year_olds".data ((splitOnL "aged_".data col.data).getD 1 [])).getD 0 [])
      "_".data "–".data)
  else col

/-- One dataframe row after `load_data`: `dropna(subset=["crude_mortality",
"year", "country"])` guarantees `country`, `year`, `crude_mortality` are
present, so they are not optional here.  `mf_ratio` embeds the column
`male_to_female_suicide_death_rate_ratio_age_standardized`; `ages` holds the
age-bucket columns as (column name, cell) pairs in dataframe column order. -/
structure Row where
  country : String
  year : ℤ
  crude_mortality : ℚ
  population : Option ℚ
  mf_ratio : Option ℚ
  ages : List (String × Option ℚ)
deriving DecidableEq

/-- The selection `df[(df["country"] == c) & (df["year"] == y)]` with `.values[0]`:
the first matching row, `none` when the selection is empty. -/
def lookupRow (ds : List Row) (c : String) (y : ℤ) : Option Row :=
  (ds.filter (fun r => r.country == c && r.year == y)).head?

/-- Line 107: `(latest['crude_mortality'].values[0] - previous[...].values[0])
if not previous.empty and not latest.empty ... else None`. -/
def crude_mortality_delta (latest previous : Option Row) : Option ℚ :=
  match latest, previous with
  | some l, some p => some (l.crude_mortality - p.crude_mortality)
  | _, _ => none

/-- Lines 117-122: the male-to-female ratio delta.  The Python variables are
`None` when the corresponding frame is empty and `NaN` when the row exists
with a missing cell; both are `none` here, and `cur - NaN = NaN` makes the
subtraction propagate exactly as this match does. -/
def m_f_ratio_delta (latest previous : Option Row) : Option ℚ :=
  match latest.bind Row.mf_ratio, previous.bind Row.mf_ratio with
  | some c, some p => some (c - p)
  | _, _ => none

/-- Lines 134-136 / 138-140: `int(crude_mortality * population / 100000)`
guarded by `pd.notna` on both inputs, `None` otherwise. -/
def estimated_total_suicides (crude_mortality population : Option ℚ) : Option ℤ :=
  match crude_mortality, population with
  | some c, some p => some (truncQ (c * p / 100000))
  | _, _ => none

/-- The value `current_total_suicides` (lines 134-136) as a function of the `latest`
selection: `None` when the frame is empty or population is missing. -/
def current_total_suicides (latest : Option Row) : Option ℤ :=
  match latest with
  | some l => estimated_total_suicides (some l.crude_mortality) l.population
  | none => none

/-- Lines 142-144: `total_suicides_delta`, `None` unless both totals exist. -/
def total_suicides_delta (latest previous : Option Row) : Option ℤ :=
  match current_total_suicides latest, current_total_suicides previous with
  | some a, some b => some (a - b)
  | _, _ => none

/-
  Age-Series Reshaper (lines 168-183).
-/

/-- Line 168: `[c for c in df.columns if "aged_" in c and "both_sexes" in c]`. -/
def selBoth (p : String × Option ℚ) : Bool :=
  containsL p.1.data "aged_".data && containsL p.1.data "both_sexes".data

/-- The frame `latest[age_cols].T.dropna()` (line 170): keep the cells that are
present, pairing each with its column name. -/
def presentPairs (l : List (String × Option ℚ)) : List (String × ℚ) :=
  l.filterMap (fun p => p.2.map (fun v => (p.1, v)))

/-- The comparison used by `age_data.sort_values("rate")`: order the
(label, value) pairs by value. -/
def byValue (a b : String × ℚ) : Prop := a.2 ≤ b.2

instance : DecidableRel byValue := fun a b => inferInstanceAs (Decidable (a.2 ≤ b.2))

instance : IsTotal (String × ℚ) byValue := ⟨fun a b => le_total a.2 b.2⟩

instance : IsTrans (String × ℚ) byValue := ⟨fun _ _ _ hab hbc => le_trans hab hbc⟩

/-- Lines 168-183 combined: select the both-sexes age columns, drop absent
cells, sort ascending by value (pandas `sort_values` is stable here), then
relabel each column name.  (The source relabels after sorting; labels do not
affect the order.) -/
def age_series (ages : List (String × Option ℚ)) : List (String × ℚ) :=
  (List.insertionSort byValue (presentPairs (ages.filter selBoth))).map
    (fun p => (age_label p.1, p.2))

/-
  Aggregator: top-10 selections (lines 90-95, 234, 276).
-/

/-- Lines 90-95: the year slice with rows of absent population removed (the
`estimated_total_suicides` column is then total on it). -/
def filtered_data_for_year (df : List Row) (y : ℤ) : List Row :=
  (df.filter (fun r => r.year == y)).filter (fun r => r.population.isSome)

/-- The sort `df.sort_values(key, ascending=False)`: pandas argsorts ascending
(stably, for frames of this size) and reverses the order. -/
def sortDescBy {β : Type} [LinearOrder β] (key : Row → β) (rows : List Row) : List Row :=
  (List.insertionSort (fun a b => key a ≤ key b) rows).reverse

instance {β : Type} [LinearOrder β] (key : Row → β) :
    IsTotal Row (fun a b => key a ≤ key b) := ⟨fun a b => le_total (key a) (key b)⟩

instance {β : Type} [LinearOrder β] (key : Row → β) :
    IsTrans Row (fun a b => key a ≤ key b) := ⟨fun _ _ _ hab hbc => le_trans hab hbc⟩

/-- Line 234: `filtered_data_for_year.sort_values("crude_mortality",
ascending=False).head(10)`. -/
def top10 (df : List Row) (y : ℤ) : List Row :=
  (sortDescBy Row.crude_mortality (filtered_data_for_year df y)).take 10

/-- Line 95 per row: `(crude_mortality * population / 100000).astype(int)`
(population present on every row of `filtered_data_for_year`). -/
def est_key (r : Row) : ℤ := truncQ (r.crude_mortality * r.population.getD 0 / 100000)

/-- Line 276: `filtered_data_for_year.sort_values("estimated_total_suicides",
ascending=False).head(10)`.  The `estimated_total_suicides` column is only
created when `filtered_data_for_year` is non-empty (the guard at line 94),
so on an empty slice `sort_values` raises KeyError — modelled as `none`. -/
def top10_abs (df : List Row) (y : ℤ) : Option (List Row) :=
  if filtered_data_for_year df y = [] then none
  else some ((sortDescBy est_key (filtered_data_for_year df y)).take 10)

/-
  Concrete rows for the end-to-end scenarios.
-/

/-- Scenario row (Country A, 2018, mortality 10, population 1,000,000). -/
def rowA2018 : Row := ⟨"Country A", 2018, 10, some 1000000, none, []⟩

/-- Scenario row (Country A, 2019, mortality 12, population 1,000,000). -/
def rowA2019 : Row := ⟨"Country A", 2019, 12, some 1000000, none, []⟩

/-
  Helper lemmas.
-/

/-- Truncation toward zero is monotone. -/
theorem truncQ_mono {q1 q2 : ℚ} (h : q1 ≤ q2) : truncQ q1 ≤ truncQ q2 := by
  unfold truncQ
  by_cases h1 : 0 ≤ q1
  · rw [if_pos h1, if_pos (le_trans h1 h)]
    exact Int.floor_mono h
  · rw [if_neg h1]
    by_cases h2 : 0 ≤ q2
    · rw [if_pos h2]
      have hc : ⌈q1⌉ ≤ 0 := Int.ceil_le.mpr (by exact_mod_cast le_of_not_le h1)
      have hf : 0 ≤ ⌊q2⌋ := Int.floor_nonneg.mpr h2
      omega
    · rw [if_neg h2]
      exact Int.ceil_mono h

/-- Modelled from the spec: the `round` in
`estimated_total_suicides(record) = round(crude_mortality * population /
100000)` read as nearest-integer rounding (ties rounded up). -/
def round_spec (q : ℚ) : ℤ := ⌊q + 1/2⌋

/-
  Claim theorems.
-/

/-- C1: for a record with `population` and `crude_mortality` present,
`estimated_total_suicides` is `crude_mortality * population / 100000`
truncated toward zero; with either input unavailable it is the distinct
unavailable value `none`; and on the two-row scenario (Country A, 2018,
mortality 10, pop 1,000,000), (Country A, 2019, mortality 12, pop 1,000,000)
the query (2019, Country A) yields crude-mortality delta +2, estimated total
120, and total delta +20. -/
theorem C1_trunc_semantics_and_scenario :
    (∀ c p : ℚ, estimated_total_suicides (some c) (some p) = some (truncQ (c * p / 100000)))
    ∧ (∀ p, estimated_total_suicides none p = none)
    ∧ (∀ c, estimated_total_suicides c none = none)
    ∧ crude_mortality_delta (lookupRow [rowA2018, rowA2019] "Country A" 2019)
        (lookupRow [rowA2018, rowA2019] "Country A" (2019 - 1)) = some 2
    ∧ current_total_suicides (lookupRow [rowA2018, rowA2019] "Country A" 2019) = some 120
    ∧ total_suicides_delta (lookupRow [rowA2018, rowA2019] "Country A" 2019)
        (lookupRow [rowA2018, rowA2019] "Country A" (2019 - 1)) = some 20 := by
  have hcur : lookupRow [rowA2018, rowA2019] "Country A" 2019 = some rowA2019 := rfl
  have hprev : lookupRow [rowA2018, rowA2019] "Country A" (2019 - 1) = some rowA2018 := rfl
  have h19 : current_total_suicides (some rowA2019) = some 120 := by
    show estimated_total_suicides (some 12) (some 1000000) = some 120
    simp only [estimated_total_suicides, truncQ]
    norm_num
  have h18 : current_total_suicides (some rowA2018) = some 100 := by
    show estimated_total_suicides (some 10) (some 1000000) = some 100
    simp only [estimated_total_suicides, truncQ]
    norm_num
  refine ⟨fun c p => rfl, fun p => by cases p <;> rfl, fun c => by cases c <;> rfl, ?_, ?_, ?_⟩
  · rw [hcur, hprev]
    show some ((12 : ℚ) - 10) = some 2
    norm_num
  · rw [hcur, h19]
  · rw [hcur, hprev]
    simp only [total_suicides_delta, h19, h18]
    norm_num

/-- C2 counterexample: at mortality 1, population 170,000 the code computes
`int(1.7) = 1`, while nearest-integer rounding of `1.7` is `2`; so
`estimated_total_suicides` is not `round(crude_mortality * population /
100000)`. -/
theorem C2_round_counterexample :
    estimated_total_suicides (some 1) (some 170000) = some 1
    ∧ round_spec ((1 : ℚ) * 170000 / 100000) = 2
    ∧ (1 : ℤ) ≠ 2 := by
  refine ⟨?_, ?_, by norm_num⟩
  · simp only [estimated_total_suicides, truncQ]
    norm_num
  · simp only [round_spec]
    norm_num

/-- C2 amended: `estimated_total_suicides` equals the truncation toward zero
(not the nearest-integer rounding) of `crude_mortality * population /
100000` when both inputs are present, and is absent when either input is
absent. -/
theorem C2_amended_truncation :
    (∀ c p : ℚ, estimated_total_suicides (some c) (some p) = some (truncQ (c * p / 100000)))
    ∧ (∀ p, estimated_total_suicides none p = none)
    ∧ (∀ c, estimated_total_suicides c none = none) :=
  ⟨fun c p => rfl, fun p => by cases p <;> rfl, fun c => by cases c <;> rfl⟩

/-- C9: for fixed present non-negative `crude_mortality`, the estimated total
is monotonically non-decreasing in `population`. -/
theorem C9_monotone_in_population (c p1 p2 : ℚ) (hc : 0 ≤ c) (hp : p1 ≤ p2) :
    ∃ a b : ℤ, estimated_total_suicides (some c) (some p1) = some a
      ∧ estimated_total_suicides (some c) (some p2) = some b ∧ a ≤ b :=
  ⟨truncQ (c * p1 / 100000), truncQ (c * p2 / 100000), rfl, rfl,
    truncQ_mono (by gcongr)⟩

/-- C9 witness: the monotonicity theorem instantiated at mortality 1 and
populations 0 ≤ 170000. -/
theorem C9_monotone_in_population_witness :
    (0 : ℚ) ≤ 1 ∧ (0 : ℚ) ≤ 170000 ∧
    (∃ a b : ℤ, estimated_total_suicides (some 1) (some 0) = some a
      ∧ estimated_total_suicides (some 1) (some 170000) = some b ∧ a ≤ b) :=
  ⟨by norm_num, by norm_num, C9_monotone_in_population 1 0 170000 (by norm_num) (by norm_num)⟩

/-- C3: the crude-mortality delta is the difference of the current and
previous values when both rows are present (the loader guarantees
`crude_mortality` itself is present on every row); when the previous-year
row is missing, every delta — crude mortality, male-to-female ratio,
estimated total suicides — is the distinct unavailable value `none`, which
is neither `some 0` nor an error (the functions are total). -/
theorem C3_deltas_unavailable :
    (∀ l p : Row, crude_mortality_delta (some l) (some p)
        = some (l.crude_mortality - p.crude_mortality))
    ∧ (∀ (ds : List Row) (c : String) (y : ℤ) (latest : Option Row),
        lookupRow ds c (y - 1) = none →
          crude_mortality_delta latest (lookupRow ds c (y - 1)) = none
          ∧ m_f_ratio_delta latest (lookupRow ds c (y - 1)) = none
          ∧ total_suicides_delta latest (lookupRow ds c (y - 1)) = none)
    ∧ (∀ x : Option Row, crude_mortality_delta none x = none
        ∧ crude_mortality_delta x none = none)
    ∧ (none : Option ℚ) ≠ some 0 ∧ (none : Option ℤ) ≠ some 0 := by
  refine ⟨fun l p => rfl, ?_, ?_, by simp, by simp⟩
  · intro ds c y latest h
    rw [h]
    refine ⟨by cases latest <;> rfl, ?_, ?_⟩
    · show (match latest.bind Row.mf_ratio, (none : Option Row).bind Row.mf_ratio with
        | some c, some p => some (c - p) | _, _ => none) = none
      cases latest.bind Row.mf_ratio <;> rfl
    · show (match current_total_suicides latest, current_total_suicides none with
        | some a, some b => some (a - b) | _, _ => none) = none
      cases current_total_suicides latest <;> rfl
  · intro x
    exact ⟨by cases x <;> rfl, by cases x <;> rfl⟩

/-- C3 witness: with an empty dataset the previous-year lookup for
(Country A, 2019) is missing and all three deltas are unavailable. -/
theorem C3_deltas_unavailable_witness :
    lookupRow [] "Country A" (2019 - 1) = none
    ∧ (crude_mortality_delta (some rowA2019) (lookupRow [] "Country A" (2019 - 1)) = none
       ∧ m_f_ratio_delta (some rowA2019) (lookupRow [] "Country A" (2019 - 1)) = none
       ∧ total_suicides_delta (some rowA2019) (lookupRow [] "Country A" (2019 - 1)) = none) :=
  ⟨rfl, C3_deltas_unavailable.2.1 [] "Country A" 2019 (some rowA2019) rfl⟩

/-- C4 counterexample: the source relabels only columns containing
`"_year_olds"`; the name `"aged_15_19_years_old"` (as the claim spells it)
does not contain that marker, so it is passed through unchanged rather than
mapped to `"15–19"`. -/
theorem C4_years_old_counterexample :
    age_label "aged_15_19_years_old" = "aged_15_19_years_old"
    ∧ age_label "aged_15_19_years_old" ≠ "15–19" := by
  exact ⟨by decide, by decide⟩

/-- C4 amended: for the column-name form the source actually matches — a
name containing `"aged_"` and the suffix `"_year_olds"` — the label is the
age-range token with `"_"` replaced by an en-dash: `"aged_15_19_year_olds"`
maps to `"15–19"` and `"aged_70+_year_olds"` maps to `"70+"`; names with the
claim's `"_years_old"` spelling are left unchanged. -/
theorem C4_year_olds_amended :
    age_label "aged_15_19_year_olds" = "15–19"
    ∧ age_label "aged_70+_year_olds" = "70+"
    ∧ age_label "aged_15_19_years_old" = "aged_15_19_years_old" := by
  exact ⟨by decide, by decide, by decide⟩

/-- C5 counterexample: with the claim's literal column names — which contain
no `"both_sexes"` marker — the column selection at line 168 matches nothing,
so the reshaper returns the empty series, not
`[("5–14", 1.2), ("15–24", 3.4)]`. -/
theorem C5_example_counterexample :
    age_series [("aged_5_14", some (1.2 : ℚ)), ("aged_15_24", some 3.4),
      ("aged_25_64", none)] = []
    ∧ ([] : List (String × ℚ)) ≠ [("5–14", 1.2), ("15–24", 3.4)] :=
  ⟨rfl, by simp⟩

/-- C5 amended: the reshaper drops entries whose value is absent, returns
the remaining (label, value) pairs sorted ascending by value, and returns an
empty series when zero fields match or all values are absent; the example
holds once the column names carry the markers the source selects on
(`"aged_"`, `"both_sexes"`) and the `"_year_olds"` suffix: age columns
aged_5_14 ↦ 1.2, aged_15_24 ↦ 3.4, aged_25_64 absent reshape to
`[("5–14", 1.2), ("15–24", 3.4)]` with 25–64 omitted. -/
theorem C5_age_series_properties :
    (∀ ages, List.Sorted byValue (age_series ages))
    ∧ (∀ ages, (age_series ages).Perm
        ((presentPairs (ages.filter selBoth)).map (fun p => (age_label p.1, p.2))))
    ∧ (∀ ages, ages.filter selBoth = [] → age_series ages = [])
    ∧ (∀ ages, (∀ p ∈ ages, p.2 = none) → age_series ages = [])
    ∧ age_series
        [("aged_5_14_year_olds_both_sexes", some (1.2 : ℚ)),
         ("aged_15_24_year_olds_both_sexes", some 3.4),
         ("aged_25_64_year_olds_both_sexes", none)]
      = [("5–14", 1.2), ("15–24", 3.4)] := by
  refine ⟨?_, ?_, ?_, ?_, ?_⟩
  · intro ages
    unfold age_series
    rw [List.Sorted, List.pairwise_map]
    exact List.sorted_insertionSort byValue _
  · intro ages
    exact (List.perm_insertionSort byValue _).map _
  · intro ages h
    unfold age_series
    rw [h]
    rfl
  · intro ages h
    unfold age_series
    have hp : presentPairs (ages.filter selBoth) = [] := by
      refine List.filterMap_eq_nil_iff.mpr ?_
      intro p hp
      rw [h p (List.mem_of_mem_filter hp)]
      rfl
    rw [hp]
    rfl
  · unfold age_series
    rw [show presentPairs
        (List.filter selBoth
          [("aged_5_14_year_olds_both_sexes", some (1.2 : ℚ)),
           ("aged_15_24_year_olds_both_sexes", some 3.4),
           ("aged_25_64_year_olds_both_sexes", none)])
        = [("aged_5_14_year_olds_both_sexes", (1.2 : ℚ)),
           ("aged_15_24_year_olds_both_sexes", 3.4)] from rfl]
    rw [show List.insertionSort byValue
        [("aged_5_14_year_olds_both_sexes", (1.2 : ℚ)),
         ("aged_15_24_year_olds_both_sexes", 3.4)]
        = [("aged_5_14_year_olds_both_sexes", (1.2 : ℚ)),
           ("aged_15_24_year_olds_both_sexes", 3.4)] from by
      simp only [List.insertionSort, List.orderedInsert]
      rw [if_pos (show byValue ("aged_5_14_year_olds_both_sexes", (1.2 : ℚ))
        ("aged_15_24_year_olds_both_sexes", 3.4) from by
          show (1.2 : ℚ) ≤ 3.4
          norm_num)]]
    rfl

/-- C5 witness: a column list with no matching field reshapes to the empty
series. -/
theorem C5_age_series_properties_witness :
    (List.filter selBoth [(("country", some (1 : ℚ)) : String × Option ℚ)] = [])
    ∧ age_series [(("country", some (1 : ℚ)) : String × Option ℚ)] = [] :=
  ⟨rfl, C5_age_series_properties.2.2.1 [("country", some 1)] rfl⟩

/-- A descending sort is a permutation of its input. -/
theorem sortDescBy_perm {β : Type} [LinearOrder β] (key : Row → β) (rows : List Row) :
    (sortDescBy key rows).Perm rows :=
  (List.reverse_perm _).trans (List.perm_insertionSort _ _)

/-- A descending sort is sorted descending by its key. -/
theorem sortDescBy_sorted {β : Type} [LinearOrder β] (key : Row → β) (rows : List Row) :
    List.Pairwise (fun a b => key b ≤ key a) (sortDescBy key rows) := by
  unfold sortDescBy
  rw [List.pairwise_reverse]
  exact List.sorted_insertionSort _ rows

/-- Rows used by the tie-breaking counterexample: equal mortality, distinct
countries, in dataset order `tieA` then `tieB`. -/
def tieA : Row := ⟨"A", 2019, 5, some 1000, none, []⟩

/-- Second row of the tie: same `crude_mortality` as `tieA`. -/
def tieB : Row := ⟨"B", 2019, 5, some 1000, none, []⟩

/-- C8 counterexample: pandas implements `ascending=False` by reversing an
ascending argsort, so two rows tied on the metric come out in the reverse
of their original order — `top10 [tieA, tieB]` is `[tieB, tieA]`, not the
original group order `[tieA, tieB]`. -/
theorem C8_tie_order_counterexample :
    top10 [tieA, tieB] 2019 = [tieB, tieA]
    ∧ ([tieB, tieA] : List Row) ≠ [tieA, tieB] := by
  constructor
  · show (sortDescBy Row.crude_mortality (filtered_data_for_year [tieA, tieB] 2019)).take 10
      = [tieB, tieA]
    rw [show filtered_data_for_year [tieA, tieB] 2019 = [tieA, tieB] from rfl]
    unfold sortDescBy
    rw [show List.insertionSort (fun a b => a.crude_mortality ≤ b.crude_mortality)
        [tieA, tieB] = [tieA, tieB] from by
      simp only [List.insertionSort, List.orderedInsert]
      rw [if_pos (show tieA.crude_mortality ≤ tieB.crude_mortality from le_refl 5)]]
    rfl
  · intro h
    have : tieB = tieA := by
      have := List.head_eq_of_cons_eq h
      exact this
    simp only [tieA, tieB, Row.mk.injEq] at this
    exact absurd this.1 (by decide)

/-- C8 amended: `top10` returns at most 10 entries, every entry is a row of
the filtered year slice (so no group with zero contributing rows), sorted
descending by crude mortality; `top10_abs` raises KeyError when the
filtered slice is empty (the `estimated_total_suicides` column is only
created for a non-empty slice) and otherwise returns a result with the same
three properties for the estimate; tie order is not the original group
order (see the counterexample — pandas reverses a stably argsorted
ascending order). -/
theorem C8_topN_bounds_sorted (df : List Row) (y : ℤ) :
    ((top10 df y).length ≤ 10
     ∧ (∀ r, r ∈ top10 df y → r ∈ filtered_data_for_year df y)
     ∧ List.Pairwise (fun a b : Row => b.crude_mortality ≤ a.crude_mortality) (top10 df y))
    ∧ (∀ l, top10_abs df y = some l →
        l.length ≤ 10
        ∧ (∀ r, r ∈ l → r ∈ filtered_data_for_year df y)
        ∧ List.Pairwise (fun a b : Row => est_key b ≤ est_key a) l)
    ∧ (filtered_data_for_year df y = [] → top10_abs df y = none) := by
  refine ⟨⟨List.length_take_le _ _, ?_, ?_⟩, ?_, ?_⟩
  · intro r hr
    exact (sortDescBy_perm Row.crude_mortality _).mem_iff.mp (List.mem_of_mem_take hr)
  · exact (sortDescBy_sorted Row.crude_mortality _).sublist (List.take_sublist _ _)
  · intro l hl
    unfold top10_abs at hl
    by_cases he : filtered_data_for_year df y = []
    · rw [if_pos he] at hl
      exact Option.noConfusion hl
    · rw [if_neg he] at hl
      have hl2 : (sortDescBy est_key (filtered_data_for_year df y)).take 10 = l :=
        Option.some.inj hl
      rw [← hl2]
      refine ⟨List.length_take_le _ _, ?_, ?_⟩
      · intro r hr
        exact (sortDescBy_perm est_key _).mem_iff.mp (List.mem_of_mem_take hr)
      · exact (sortDescBy_sorted est_key _).sublist (List.take_sublist _ _)
  · intro he
    unfold top10_abs
    rw [if_pos he]

/-- C8 witness: on a one-row dataset the single row is in the top-10 and in
the filtered year slice, and `top10_abs` returns the defined singleton
result. -/
theorem C8_topN_bounds_sorted_witness :
    rowA2019 ∈ top10 [rowA2019] 2019
    ∧ rowA2019 ∈ filtered_data_for_year [rowA2019] 2019
    ∧ top10_abs [rowA2019] 2019 = some [rowA2019]
    ∧ ([rowA2019] : List Row).length ≤ 10 := by
  have hm : rowA2019 ∈ top10 [rowA2019] 2019 := by
    rw [show top10 [rowA2019] 2019 = [rowA2019] from rfl]
    exact List.mem_singleton.mpr rfl
  have habs : top10_abs [rowA2019] 2019 = some [rowA2019] := rfl
  exact ⟨hm, (C8_topN_bounds_sorted [rowA2019] 2019).1.2.1 rowA2019 hm, habs,
    ((C8_topN_bounds_sorted [rowA2019] 2019).2.1 [rowA2019] habs).1⟩

/-- Truncation of an integer value is that integer. -/
theorem truncQ_intCast (n : ℤ) : truncQ ((n : ℚ)) = n := by
  unfold truncQ
  by_cases h : (0 : ℚ) ≤ (n : ℚ)
  · rw [if_pos h]
    exact Int.floor_intCast n
  · rw [if_neg h]
    exact Int.ceil_intCast n

/-- Interpolating at fraction 0 returns the lower color exactly. -/
theorem lerpColor_zero (a b : Rgb) : lerpColor a b 0 = a := by
  unfold lerpColor lerpChannel
  rw [show ((a.1 : ℚ) + 0 * ((b.1 : ℚ) - (a.1 : ℚ))) = (a.1 : ℚ) by ring,
    show ((a.2.1 : ℚ) + 0 * ((b.2.1 : ℚ) - (a.2.1 : ℚ))) = (a.2.1 : ℚ) by ring,
    show ((a.2.2 : ℚ) + 0 * ((b.2.2 : ℚ) - (a.2.2 : ℚ))) = (a.2.2 : ℚ) by ring]
  rw [truncQ_intCast, truncQ_intCast, truncQ_intCast]

/-- Interpolating at fraction 1 returns the upper color exactly. -/
theorem lerpColor_one (a b : Rgb) : lerpColor a b 1 = b := by
  unfold lerpColor lerpChannel
  rw [show ((a.1 : ℚ) + 1 * ((b.1 : ℚ) - (a.1 : ℚ))) = (b.1 : ℚ) by ring,
    show ((a.2.1 : ℚ) + 1 * ((b.2.1 : ℚ) - (a.2.1 : ℚ))) = (b.2.1 : ℚ) by ring,
    show ((a.2.2 : ℚ) + 1 * ((b.2.2 : ℚ) - (a.2.2 : ℚ))) = (b.2.2 : ℚ) by ring]
  rw [truncQ_intCast, truncQ_intCast, truncQ_intCast]

/-- At normalized position 0 the loop stops at the first segment and returns
the first stop's color. -/
theorem interp_at_zero (p q : ℚ × Rgb) (rest : List (ℚ × Rgb))
    (hp : p.1 = 0) (hq : 0 < q.1) :
    interpSegments 0 (p :: q :: rest) = some p.2 := by
  simp only [interpSegments]
  rw [if_pos ⟨le_of_eq hp, le_of_lt hq⟩]
  rw [if_neg (show ¬(q.1 - p.1 = 0) from by rw [hp, sub_zero]; exact ne_of_gt hq)]
  rw [show ((0 : ℚ) - p.1) / (q.1 - p.1) = 0 from by rw [hp, sub_zero, zero_div]]
  rw [lerpColor_zero]

/-- At normalized position 1, when every stop before the final one is
strictly below 1, the loop walks to the final segment and returns the last
stop's color. -/
theorem interp_at_one (clast : Rgb) :
    ∀ (front : List (ℚ × Rgb)) (p : ℚ × Rgb),
      (∀ s ∈ p :: front, s.1 < 1) →
      interpSegments 1 ((p :: front) ++ [((1 : ℚ), clast)]) = some clast := by
  intro front
  induction front with
  | nil =>
    intro p h
    have hp : p.1 < 1 := h p (List.mem_cons_self p [])
    simp only [List.cons_append, List.nil_append, interpSegments]
    rw [if_pos ⟨le_of_lt hp, le_refl 1⟩]
    rw [if_neg (show ¬((1 : ℚ) - p.1 = 0) from sub_ne_zero.mpr (ne_of_gt hp))]
    rw [div_self (sub_ne_zero.mpr (ne_of_gt hp))]
    rw [lerpColor_one]
  | cons r rs ih =>
    intro p h
    have hr : r.1 < 1 := h r (by simp)
    simp only [List.cons_append, interpSegments]
    rw [if_neg (fun hc => absurd hc.2 (not_le.mpr hr))]
    exact ih r (fun s hs => h s (List.mem_cons_of_mem p hs))

/-- C6: for a valid color scale — stops strictly increasing, first stop 0,
last stop 1 — and a non-degenerate range, the color at `value = min_val`
(normalized position 0) is exactly the first stop's color and the color at
`value = max_val` (normalized position 1) is exactly the last stop's color:
the channel truncation is exact on the endpoint values. -/
theorem C6_endpoint_colors (s : List (ℚ × Rgb)) (min_val max_val : ℚ)
    (hne : min_val ≠ max_val) (hlen : 2 ≤ s.length)
    (hmono : List.Pairwise (· < ·) (s.map Prod.fst))
    (hfirst : (s.headD ((0 : ℚ), defaultBlue)).1 = 0)
    (hlast : (s.getLastD ((0 : ℚ), defaultBlue)).1 = 1) :
    get_dynamic_color (some min_val) min_val max_val s
      = some ((s.headD ((0 : ℚ), defaultBlue)).2)
    ∧ get_dynamic_color (some max_val) min_val max_val s
      = some ((s.getLastD ((0 : ℚ), defaultBlue)).2) := by
  have hsub : max_val - min_val ≠ 0 := sub_ne_zero.mpr (Ne.symm hne)
  have hcond : ∀ v : ℚ, ¬(some v = (none : Option ℚ) ∨ max_val - min_val = 0) := by
    rintro v (h | h)
    · exact Option.noConfusion h
    · exact hsub h
  match s, hlen with
  | a :: b :: tl, _ =>
  have ha : a.1 = 0 := hfirst
  have hab : a.1 < b.1 := by
    simp only [List.map_cons, List.pairwise_cons] at hmono
    exact hmono.1 b.1 (List.mem_cons_self _ _)
  have hbpos : 0 < b.1 := ha ▸ hab
  constructor
  · show get_dynamic_color (some min_val) min_val max_val (a :: b :: tl) = some a.2
    unfold get_dynamic_color
    rw [if_neg (hcond min_val)]
    rw [show (max 0 (min 1 (((some min_val).getD 0 - min_val) / (max_val - min_val))))
        = 0 from by
      simp only [Option.getD_some]
      rw [sub_self, zero_div]
      simp]
    rw [interp_at_zero a b tl ha hbpos]
  · show get_dynamic_color (some max_val) min_val max_val (a :: b :: tl)
      = some (((a :: b :: tl).getLastD ((0 : ℚ), defaultBlue)).2)
    unfold get_dynamic_color
    rw [if_neg (hcond max_val)]
    rw [show (max 0 (min 1 (((some max_val).getD 0 - min_val) / (max_val - min_val))))
        = 1 from by
      simp only [Option.getD_some]
      rw [div_self hsub]
      simp]
    have hne2 : (a :: b :: tl) ≠ [] := by simp
    have hgl : (a :: b :: tl).getLastD ((0 : ℚ), defaultBlue)
        = (a :: b :: tl).getLast hne2 := by
      rw [List.getLastD_eq_getLast?, List.getLast?_eq_getLast _ hne2, Option.getD_some]
    have hgl1 : ((a :: b :: tl).getLast hne2).1 = 1 := by rw [← hgl]; exact hlast
    have hsplit : (a :: b :: tl).dropLast ++ [(a :: b :: tl).getLast hne2]
        = a :: b :: tl := List.dropLast_append_getLast hne2
    have hdrop : (a :: b :: tl).dropLast = a :: (b :: tl).dropLast := rfl
    have hstops : ∀ x ∈ (a :: b :: tl).dropLast, x.1 < 1 := by
      intro x hx
      have hmono2 : List.Pairwise (· < ·)
          (((a :: b :: tl).dropLast ++ [(a :: b :: tl).getLast hne2]).map Prod.fst) := by
        rw [hsplit]; exact hmono
      rw [List.map_append, List.pairwise_append] at hmono2
      have := hmono2.2.2 x.1 (List.mem_map_of_mem Prod.fst hx)
          ((a :: b :: tl).getLast hne2).1 (by simp)
      rw [hgl1] at this
      exact this
    have hone : interpSegments 1
        (((a :: (b :: tl).dropLast) ++ [((1 : ℚ), ((a :: b :: tl).getLast hne2).2)]))
        = some ((a :: b :: tl).getLast hne2).2 := by
      refine interp_at_one _ ((b :: tl).dropLast) a ?_
      intro x hx
      exact hstops x (hdrop ▸ hx)
    rw [show ((1 : ℚ), ((a :: b :: tl).getLast hne2).2) = (a :: b :: tl).getLast hne2 from by
      rw [← hgl1]] at hone
    rw [← hdrop, hsplit] at hone
    rw [hone, hgl]

/-- A minimal valid two-stop scale used to instantiate the endpoint theorem. -/
def twoStopScale : List (ℚ × Rgb) := [(0, (224, 242, 247)), (1, (10, 59, 87))]

/-- C6 witness: the endpoint theorem instantiated at the two-stop scale with
range 0..10. -/
theorem C6_endpoint_colors_witness :
    get_dynamic_color (some 0) 0 10 twoStopScale = some ((224 : ℤ), (242 : ℤ), (247 : ℤ))
    ∧ get_dynamic_color (some 10) 0 10 twoStopScale = some ((10 : ℤ), (59 : ℤ), (87 : ℤ)) :=
  C6_endpoint_colors twoStopScale 0 10 (by norm_num) (by norm_num [twoStopScale])
    (by norm_num [twoStopScale, List.pairwise_cons]) rfl rfl

/-- C7: for any non-empty scale, whenever the value is absent or the range
is degenerate (`max_val = min_val`), the result is the color at the middle
index (`len // 2`) of the stop list — deterministic and never a failure,
regardless of the value. -/
theorem C7_degenerate_midpoint (value : Option ℚ) (min_val max_val : ℚ)
    (s : List (ℚ × Rgb)) (hs : s ≠ []) (h : value = none ∨ min_val = max_val) :
    get_dynamic_color value min_val max_val s
      = some ((s.getD (s.length / 2) ((0 : ℚ), defaultBlue)).2) := by
  have hcond : value = none ∨ max_val - min_val = 0 := by
    rcases h with h | h
    · exact Or.inl h
    · exact Or.inr (sub_eq_zero.mpr h.symm)
  unfold get_dynamic_color
  rw [if_pos hcond]
  match s, hs with
  | a :: tl, _ => rfl

/-- C7 witness: with an absent value the six-stop `BLUE_COLOR_SCALE` yields
its middle-index color `"#4DB8E0"` = (77, 184, 224). -/
theorem C7_degenerate_midpoint_witness :
    BLUE_COLOR_SCALE ≠ []
    ∧ get_dynamic_color none 3 7 BLUE_COLOR_SCALE = some ((77 : ℤ), (184 : ℤ), (224 : ℤ)) :=
  ⟨by simp [BLUE_COLOR_SCALE],
   C7_degenerate_midpoint none 3 7 BLUE_COLOR_SCALE (by simp [BLUE_COLOR_SCALE]) (Or.inl rfl)⟩

/-- C10: with an empty stop list, the fallback branch (value absent or
degenerate range) returns the hard-coded constant `"#1F77B4"` =
(31, 119, 180) instead of failing; on the non-fallback branch with an empty
scale the function is undefined (the source would raise IndexError at
`color_scale[-1]`), so the hard-coded default is the only defined behaviour
for an empty scale. -/
theorem C10_empty_scale_default (value : Option ℚ) (min_val max_val : ℚ) :
    ((value = none ∨ min_val = max_val) →
      get_dynamic_color value min_val max_val [] = some defaultBlue)
    ∧ (value ≠ none → min_val ≠ max_val →
      get_dynamic_color value min_val max_val [] = none) := by
  constructor
  · intro h
    unfold get_dynamic_color
    rw [if_pos (by rcases h with h | h; exacts [Or.inl h, Or.inr (sub_eq_zero.mpr h.symm)])]
  · intro hv hm
    unfold get_dynamic_color
    rw [if_neg (by rintro (h | h); exacts [hv h, hm (sub_eq_zero.mp h).symm])]
    rfl

/-- C10 witness: the empty-scale theorem instantiated on both branches. -/
theorem C10_empty_scale_default_witness :
    get_dynamic_color none 0 0 [] = some defaultBlue
    ∧ get_dynamic_color (some 1) 0 1 [] = none :=
  ⟨(C10_empty_scale_default none 0 0).1 (Or.inl rfl),
   (C10_empty_scale_default (some 1) 0 1).2 (by simp) (by norm_num)⟩
